import Mathlib

/-!
Verification of the study-notes channel-processing core.

Shallow embedding of `src/utils/processing_state.py`, the batch driver loop of
`src/process_channel.py` and the per-video pipeline of `src/run_pipeline.py`.
Python dictionaries become structures or association lists, filesystem
directories become lists of file names, machine behaviour that can raise is
embedded via `Except`, and fallible operations return `Option`.
-/

namespace StudyNotes

/-- Decides whether the character list `pat` occurs contiguously inside `s`.
Embeds the Python substring test `pat in s`. -/
def containsSub (pat : List Char) : List Char → Bool
  | [] => pat.isEmpty
  | c :: rest => pat.isPrefixOf (c :: rest) || containsSub pat rest

/-- String-level wrapper for `containsSub`: Python `pat in s` on `str`. -/
def strContains (pat s : String) : Bool :=
  pat.isEmpty || containsSub pat.data s.data

/-- Longest run of ASCII digits at the front of the list: the greedy `\d+`
of the TikTok video-id regex. -/
def takeDigits : List Char → List Char
  | [] => []
  | c :: rest => if c.isDigit then c :: takeDigits rest else []

/-- Leftmost match of the Python regex `/video/(\d+)` over a character list,
returning capture group 1.  `re.search` scans start positions left to right;
at each position the literal `/video/` must match and be followed by at
least one digit, and `\d+` captures greedily. -/
def tiktokScan : List Char → Option (List Char)
  | [] => none
  | c :: rest =>
    let s := c :: rest
    if ('/' :: 'v' :: 'i' :: 'd' :: 'e' :: 'o' :: '/' :: []).isPrefixOf s then
      let after := s.drop 7
      match after with
      | d :: _ => if d.isDigit then some (takeDigits after) else tiktokScan rest
      | [] => tiktokScan rest
    else tiktokScan rest

/-- Membership in the character class `[0-9A-Za-z_-]` of the YouTube id
regex (ASCII alphanumerics, underscore, hyphen). -/
def isIdChar (c : Char) : Bool :=
  c.isAlphanum || c = '_' || c = '-'

/-- Leftmost match of the Python regex `(?:v=|\/)([0-9A-Za-z_-]{11}).*`,
returning capture group 1.  At each start position the engine first tries
the literal `v=`, then `/`; either must be followed by exactly eleven
characters of the id class; the trailing `.*` matches anything including
the empty string, so it never rejects a match. -/
def ytScan : List Char → Option (List Char)
  | [] => none
  | c :: rest =>
    let s := c :: rest
    let afterEq := s.drop 2
    if ('v' :: '=' :: []).isPrefixOf s ∧ afterEq.length ≥ 11
        ∧ (afterEq.take 11).all isIdChar then
      some (afterEq.take 11)
    else if c = '/' ∧ rest.length ≥ 11 ∧ (rest.take 11).all isIdChar then
      some (rest.take 11)
    else ytScan rest

/-- Embeds `extract_video_id` of `src/utils/processing_state.py`: platform
detection by substring test on the URL, then the platform regex; `none`
when the platform is unrecognized or the regex does not match. -/
def extract_video_id (video_url : String) : Option String :=
  if strContains "tiktok.com" video_url then
    (tiktokScan video_url.data).map fun cs => String.mk cs
  else if strContains "youtube.com" video_url || strContains "youtu.be" video_url then
    (ytScan video_url.data).map fun cs => String.mk cs
  else
    none

/-- Embeds one value of the `processed_videos` mapping: the per-video record
written by `update_processing_state`.  Timestamps are abstracted to `Nat`. -/
structure VideoRecord where
  url : String
  video_id : String
  notes_file : Option String
  processed_at : Nat
  status : String
  deriving Repr, DecidableEq

/-- Embeds the ProcessingState dictionary created by `create_initial_state`
and mutated by `update_processing_state`.  `processed_videos` is an
association list standing for the insertion-ordered Python dict; keys stay
unique because updates replace in place. -/
structure PState where
  channel_url : String
  channel_name : String
  last_processed_url : Option String
  last_processed_index : Int
  last_updated : Option Nat
  processed_videos : List (String × VideoRecord)
  total_processed : Nat
  total_skipped : Nat
  total_failed : Nat
  deriving Repr, DecidableEq

/-- Embeds `create_initial_state`: zeroed counters, no last processed URL,
index -1, empty record map. -/
def create_initial_state (channel_url channel_name : String) : PState :=
  { channel_url := channel_url
    channel_name := channel_name
    last_processed_url := none
    last_processed_index := -1
    last_updated := none
    processed_videos := []
    total_processed := 0
    total_skipped := 0
    total_failed := 0 }

/-- Replaces the binding of `k` in an association list, or appends it at the
end: Python dict assignment `d[k] = v` on an insertion-ordered dict. -/
def assocSet (k : String) (v : VideoRecord) :
    List (String × VideoRecord) → List (String × VideoRecord)
  | [] => [(k, v)]
  | (k', v') :: rest =>
    if k' = k then (k, v) :: rest else (k', v') :: assocSet k v rest

/-- Embeds `update_processing_state`: writes the per-video record, advances
`last_processed_url` and `last_updated`, and bumps exactly the counter
selected by `status`.  The wall clock is passed in as `now`. -/
def update_processing_state (state : PState) (video_id video_url : String)
    (notes_file : Option String) (status : String) (now : Nat) : PState :=
  let rec_ : VideoRecord :=
    { url := video_url
      video_id := video_id
      notes_file := notes_file
      processed_at := now
      status := status }
  let state₁ :=
    { state with
      processed_videos := assocSet video_id rec_ state.processed_videos
      last_processed_url := some video_url
      last_updated := some now }
  if status = "success" then
    { state₁ with total_processed := state₁.total_processed + 1 }
  else if status = "failed" then
    { state₁ with total_failed := state₁.total_failed + 1 }
  else if status = "skipped" then
    { state₁ with total_skipped := state₁.total_skipped + 1 }
  else
    state₁

/-- First file of the notes directory whose name contains `video_id` as a
substring: embeds `list(notes_dir.glob(f"*{video_id}*"))[0]`.  Directory
listing order is the list order; extracted video ids never contain glob
metacharacters, so the glob pattern is exactly substring containment. -/
def globFirst (video_id : String) : List String → Option String
  | [] => none
  | f :: rest => if strContains video_id f then some f else globFirst video_id rest

/-- Embeds `is_video_processed`.  `state` is optional as in the source; the
notes directory is the list of file names present on disk.  Method 1 reads
the tracking record and, when it names a (non-empty, hence truthy) notes
file, answers from that file name alone; method 2 is the filename pattern
fallback. -/
def is_video_processed (video_id : String) (state : Option PState)
    (notes_dir : List String) : Bool × Option String :=
  let fallback : Bool × Option String :=
    match globFirst video_id notes_dir with
    | some f => (true, some f)
    | none => (false, none)
  match state with
  | none => fallback
  | some st =>
    match List.lookup video_id st.processed_videos with
    | none => fallback
    | some info =>
      match info.notes_file with
      | some fname =>
        if fname = "" then fallback
        else if fname ∈ notes_dir then (true, some fname)
        else (false, none)
      | none => fallback

/-- Index of the first occurrence of `u` in a list, `none` when absent:
embeds Python `list.index`, which returns the first occurrence or raises
`ValueError`. -/
def indexOfFirst (u : String) : List String → Option Nat
  | [] => none
  | v :: rest => if v = u then some 0 else (indexOfFirst u rest).map (· + 1)

/-- Embeds `find_resume_index`: Python first tests the falsiness of
`last_processed_url` (`None` or the empty string give 0), then
`list.index` (first occurrence), whose `ValueError` on an absent URL is
caught to give 0. -/
def find_resume_index (video_urls : List String)
    (last_processed_url : Option String) : Nat :=
  match last_processed_url with
  | none => 0
  | some u =>
    if u = "" then 0
    else
      match indexOfFirst u video_urls with
      | some i => i + 1
      | none => 0

/-- Outcome of one `run_pipeline` call as observed by the batch driver of
`src/process_channel.py`: a notes path, a `None` return, or an escaping
exception. -/
inductive PipeOutcome where
  | ok (notes_path : String)
  | noNotes
  | exn
  deriving Repr, DecidableEq

/-- Characters of the current path component; a slash starts a new one, so
the run in progress when the input ends is the final component. -/
def basenameRun (cur : List Char) : List Char → List Char
  | [] => cur.reverse
  | c :: rest => if c = '/' then basenameRun [] rest else basenameRun (c :: cur) rest

/-- Final path component of a slash-separated path: `Path(notes_path).name`
for the slash-joined paths the pipeline returns. -/
def basename (p : String) : String :=
  String.mk (basenameRun [] p.data)

/-- Embeds the part of the loop body of `process_channel` that runs the
pipeline and records its outcome.  On a produced notes path the state gets
a `success` record, `last_processed_index` is set to the 0-based position
`i - 1`, and the notes file appears in the notes directory; on a `None`
return or an escaping exception the state gets a `failed` record; whenever
no video id was extracted, the state is left untouched (the `if video_id:`
guards of the source). -/
def handleOutcome (pipeline : String → PipeOutcome) (now : Nat) (st : PState)
    (notes_dir : List String) (video_url : String) (i : Nat)
    (video_id : Option String) : PState × List String :=
  match pipeline video_url with
  | .ok notes_path =>
    let notes_dir' := notes_dir ++ [basename notes_path]
    match video_id with
    | some vid =>
      ({ update_processing_state st vid video_url
          (some (basename notes_path)) "success" now with
          last_processed_index := (i : Int) - 1 }, notes_dir')
    | none => (st, notes_dir')
  | .noNotes =>
    match video_id with
    | some vid =>
      (update_processing_state st vid video_url none "failed" now, notes_dir)
    | none => (st, notes_dir)
  | .exn =>
    match video_id with
    | some vid =>
      (update_processing_state st vid video_url none "failed" now, notes_dir)
    | none => (st, notes_dir)

/-- Embeds one iteration of the video loop of `process_channel` (the body of
`for i, video_url in enumerate(...)`).  `i` is the 1-based position used by
the source, `now` the abstracted wall clock, and the accumulator carries
the in-memory state together with the file names present in the notes
directory (a successful pipeline call writes its notes file there).  State
saves to disk are modelled separately by the state store.  When
skip-existing is on, a video id was extracted and the already-processed
check fires, the video is recorded as `skipped` and the pipeline is not
invoked. -/
def stepVideo (skip_existing : Bool) (pipeline : String → PipeOutcome)
    (now : Nat) (acc : PState × List String) (video_url : String) (i : Nat) :
    PState × List String :=
  let st := acc.1
  let notes_dir := acc.2
  match extract_video_id video_url with
  | some vid =>
    let chk := is_video_processed vid (some st) notes_dir
    if skip_existing && chk.1 then
      (update_processing_state st vid video_url chk.2 "skipped" now, notes_dir)
    else
      handleOutcome pipeline now st notes_dir video_url i (some vid)
  | none => handleOutcome pipeline now st notes_dir video_url i none

/-- Folds `stepVideo` over the remaining URLs, advancing the 1-based counter
and the clock. -/
def runFrom (skip_existing : Bool) (pipeline : String → PipeOutcome) :
    List String → Nat → Nat → PState × List String → PState × List String
  | [], _, _, acc => acc
  | url :: rest, i, now, acc =>
    runFrom skip_existing pipeline rest (i + 1) (now + 1)
      (stepVideo skip_existing pipeline now acc url i)

/-- Start index computed by `process_channel`: `find_resume_index` is
consulted only when resuming is enabled and the loaded state has a truthy
`last_processed_url`. -/
def startIndex (resume : Bool) (st : PState) (video_urls : List String) : Nat :=
  let truthyLast : Bool :=
    match st.last_processed_url with
    | some u => u ≠ ""
    | none => false
  if resume ∧ truthyLast then find_resume_index video_urls st.last_processed_url
  else 0

/-- Embeds the processing loop of `process_channel` from the resume
computation onward: the slice `video_urls[start_index:]` is walked with
`enumerate(..., start=start_index + 1)`. -/
def runBatch (skip_existing resume : Bool) (video_urls : List String)
    (pipeline : String → PipeOutcome) (st : PState) (notes_dir : List String) :
    PState × List String :=
  let start := startIndex resume st video_urls
  runFrom skip_existing pipeline (video_urls.drop start) (start + 1) 0
    (st, notes_dir)

/-! ### Per-video pipeline (`src/run_pipeline.py`) -/

/-- Environment of one `run_pipeline` call: success or failure of each
external stage, availability of the two transcription backends, and
whether each best-effort cleanup deletion succeeds. -/
structure PipelineEnv where
  downloadOk : Bool
  extractOk : Bool
  whisperLocalAvailable : Bool
  openaiAvailable : Bool
  transcribeOk : Bool
  summarizeOk : Bool
  delVideoOk : Bool
  delAudioOk : Bool
  delTranscriptOk : Bool
  deriving Repr, DecidableEq

/-- Which intermediate artifacts of one pipeline run are on disk.  All start
absent; stages create them and the cleanup step deletes them. -/
structure ArtifactFS where
  videoOnDisk : Bool
  audioOnDisk : Bool
  transcriptOnDisk : Bool
  notesOnDisk : Bool
  deriving Repr, DecidableEq

/-- Embeds the control flow of `run_pipeline`: download, extract, the
transcription-availability check, transcribe (writing the transcript
file), summarize (writing the notes file; the title fallback never blocks
the save), then the cleanup step that deletes each of video, audio and
transcript if present, best effort.  The returned value is the notes path
of the source, abstracted to `Unit` since only its presence is tracked
here; each early `return None` of the source is a `none` result paired
with the artifacts left on disk at that point. -/
def run_pipeline (env : PipelineEnv) : Option Unit × ArtifactFS :=
  let fs0 : ArtifactFS :=
    { videoOnDisk := false, audioOnDisk := false
      transcriptOnDisk := false, notesOnDisk := false }
  if ¬ env.downloadOk then (none, fs0)
  else
    let fs1 := { fs0 with videoOnDisk := true }
    if ¬ env.extractOk then (none, fs1)
    else
      let fs2 := { fs1 with audioOnDisk := true }
      if ¬ env.whisperLocalAvailable ∧ ¬ env.openaiAvailable then (none, fs2)
      else if ¬ env.transcribeOk then (none, fs2)
      else
        let fs3 := { fs2 with transcriptOnDisk := true }
        if ¬ env.summarizeOk then (none, fs3)
        else
          let fs4 := { fs3 with notesOnDisk := true }
          let fs5 :=
            { fs4 with
              videoOnDisk := fs4.videoOnDisk ∧ ¬ env.delVideoOk
              audioOnDisk := fs4.audioOnDisk ∧ ¬ env.delAudioOk
              transcriptOnDisk := fs4.transcriptOnDisk ∧ ¬ env.delTranscriptOk }
          (some (), fs5)

/-! ### State store (`load_processing_state` / `save_processing_state`) -/

/-- Durable contents of the channel directory as seen by the state store:
the bytes of `.processing_state.json` and of `.processing_state.json.tmp`,
each possibly absent.  File bytes are `List Nat` (values 0..255). -/
structure StoreFS where
  stateFile : Option (List Nat)
  tmpFile : Option (List Nat)
  deriving Repr, DecidableEq

/-- Every durable filesystem state reachable while `save_processing_state`
writes `new` over `fs₀` and is interrupted at an arbitrary instant: the
initial state, the states mid-way through writing the temp file (the state
file still holds its old bytes), the state with the temp fully written,
and the state after the atomic `temp_file.replace(state_file)`, which in
one step installs the new bytes and removes the temp name. -/
def saveTrace (fs₀ : StoreFS) (new : List Nat) : List StoreFS :=
  fs₀ ::
    ((List.range (new.length + 1)).map fun k =>
      { fs₀ with tmpFile := some (new.take k) })
    ++ [{ stateFile := some new, tmpFile := none }]

/-- How a non-interrupted `save_processing_state` call can fail: an IOError
after `k` bytes of the temp file were written, an IOError at the final
replace, or no failure. -/
inductive SaveFailure where
  | atWrite (k : Nat)
  | atReplace
  | noFailure
  deriving Repr, DecidableEq

/-- Embeds `save_processing_state` running to completion of its try/except:
on success the temp bytes are fully written and atomically renamed over
the state file; on an IOError (during the write or the replace) the
handler removes the temp file if present and returns `False`, leaving the
state file untouched.  Returns the boolean result and the resulting
filesystem. -/
def save_processing_state (fs₀ : StoreFS) (new : List Nat) :
    SaveFailure → Bool × StoreFS
  | .noFailure => (true, { stateFile := some new, tmpFile := none })
  | .atWrite _ => (false, { stateFile := fs₀.stateFile, tmpFile := none })
  | .atReplace => (false, { stateFile := fs₀.stateFile, tmpFile := none })

/-! ### Loading: exceptions and UTF-8

`load_processing_state` opens the state file with `encoding='utf-8'` and
parses it with `json.load`, catching `(json.JSONDecodeError, IOError)`.
`IOError` is `OSError`; `json.JSONDecodeError` subclasses `ValueError`.  A
`UnicodeDecodeError` raised while decoding the file bytes also subclasses
`ValueError` but is neither an `OSError` nor a `json.JSONDecodeError`, so
the except clause does not catch it. -/

/-- Exceptions that can escape the embedded `load_processing_state`. -/
inductive PyExn where
  | unicodeDecodeError
  deriving Repr, DecidableEq

/-- What the state store finds when it opens the state file: no file, an
operating-system error on open/read, or a file holding the given bytes. -/
inductive ReadEnv where
  | missing
  | osError
  | bytes (bs : List Nat)
  deriving Repr, DecidableEq

/-- Strict UTF-8 decoding of a byte list, as performed by reading a Python
text-mode file opened with `encoding='utf-8'`: rejects truncated
sequences, stray continuation bytes, overlong encodings, surrogate code
points and code points above `0x10FFFF`; `none` is the
`UnicodeDecodeError` case. -/
def utf8Decode : List Nat → Option (List Char)
  | [] => some []
  | b₀ :: rest =>
    if b₀ < 0x80 then
      (utf8Decode rest).map fun cs => Char.ofNat b₀ :: cs
    else if 0xC2 ≤ b₀ ∧ b₀ ≤ 0xDF then
      match rest with
      | b₁ :: rest₁ =>
        if 0x80 ≤ b₁ ∧ b₁ ≤ 0xBF then
          (utf8Decode rest₁).map fun cs =>
            Char.ofNat ((b₀ - 0xC0) * 0x40 + (b₁ - 0x80)) :: cs
        else none
      | [] => none
    else if 0xE0 ≤ b₀ ∧ b₀ ≤ 0xEF then
      match rest with
      | b₁ :: b₂ :: rest₂ =>
        let lo₁ : Nat := if b₀ = 0xE0 then 0xA0 else 0x80
        let hi₁ : Nat := if b₀ = 0xED then 0x9F else 0xBF
        if lo₁ ≤ b₁ ∧ b₁ ≤ hi₁ ∧ 0x80 ≤ b₂ ∧ b₂ ≤ 0xBF then
          (utf8Decode rest₂).map fun cs =>
            Char.ofNat ((b₀ - 0xE0) * 0x1000 + (b₁ - 0x80) * 0x40 + (b₂ - 0x80)) :: cs
        else none
      | _ => none
    else if 0xF0 ≤ b₀ ∧ b₀ ≤ 0xF4 then
      match rest with
      | b₁ :: b₂ :: b₃ :: rest₃ =>
        let lo₁ : Nat := if b₀ = 0xF0 then 0x90 else 0x80
        let hi₁ : Nat := if b₀ = 0xF4 then 0x8F else 0xBF
        if lo₁ ≤ b₁ ∧ b₁ ≤ hi₁ ∧ 0x80 ≤ b₂ ∧ b₂ ≤ 0xBF ∧ 0x80 ≤ b₃ ∧ b₃ ≤ 0xBF then
          (utf8Decode rest₃).map fun cs =>
            Char.ofNat ((b₀ - 0xF0) * 0x40000 + (b₁ - 0x80) * 0x1000
              + (b₂ - 0x80) * 0x40 + (b₃ - 0x80)) :: cs
        else none
      | _ => none
    else none

/-- Embeds `load_processing_state` over a `ReadEnv`, parameterized by the
JSON decoder `parse` (`json.loads` composed with reading the state shape;
`parse s = none` stands for a raised `json.JSONDecodeError`).  A missing
file returns `none` before the try block; an OSError and a JSON decode
error are caught by `except (json.JSONDecodeError, IOError)` and give
`none`; a `UnicodeDecodeError` while decoding the bytes is not in the
caught tuple and escapes. -/
def load_processing_state (parse : String → Option PState) :
    ReadEnv → Except PyExn (Option PState)
  | .missing => .ok none
  | .osError => .ok none
  | .bytes bs =>
    match utf8Decode bs with
    | some cs => .ok (parse (String.mk cs))
    | none => .error .unicodeDecodeError

/-- JSON decoder instance used for concrete evaluations of the loader; the
loader is proved about for every decoder, so any concrete one serves for
witnesses and failing inputs. -/
def parseNever : String → Option PState := fun _ => none

/-! ### Concrete scenarios used by witnesses and end-to-end runs -/

/-- First video URL of the three-video channel scenario. -/
def u1 : String := "https://www.tiktok.com/@chan/video/111"

/-- Second video URL of the three-video channel scenario. -/
def u2 : String := "https://www.tiktok.com/@chan/video/222"

/-- Third video URL of the three-video channel scenario. -/
def u3 : String := "https://www.tiktok.com/@chan/video/333"

/-- Pipeline behaviour of the scenario: notes are produced for `u1` and
`u2`; the download of `u3` fails, so `run_pipeline` returns `None` for
it; every other URL also yields no notes. -/
def pipe3 : String → PipeOutcome := fun u =>
  if u = u1 then .ok "output/chan/notes/chan:alpha.md"
  else if u = u2 then .ok "output/chan/notes/chan:beta.md"
  else .noNotes

/-- First batch run of the scenario: fresh state, empty notes directory,
skip-existing and resume both enabled. -/
def run1 : PState × List String :=
  runBatch true true [u1, u2, u3] pipe3 (create_initial_state "curl" "chan") []

/-- Pipeline environment where download and audio extraction succeed but no
transcription backend is available (no local engine, no API key). -/
def envUnavail : PipelineEnv :=
  { downloadOk := true
    extractOk := true
    whisperLocalAvailable := false
    openaiAvailable := false
    transcribeOk := true
    summarizeOk := true
    delVideoOk := true
    delAudioOk := true
    delTranscriptOk := true }

/-- Concrete state with one success record naming notes file `n.md`, used to
instantiate the already-processed theorems. -/
def stOne : PState :=
  update_processing_state (create_initial_state "curl" "chan")
    "111" u1 (some "n.md") "success" 0

/-! ## Helper lemmas -/

/-- A URL absent from the list has no first occurrence. -/
theorem indexOfFirst_eq_none_of_not_mem {u : String} {l : List String}
    (h : u ∉ l) : indexOfFirst u l = none := by
  induction l with
  | nil => rfl
  | cons v rest ih =>
    have hv : ¬ v = u := fun hvu => h (hvu ▸ List.mem_cons_self v rest)
    have hrest : u ∉ rest := fun hm => h (List.mem_cons_of_mem v hm)
    simp [indexOfFirst, hv, ih hrest]

/-- When position `i` holds `u` and no earlier position does, `i` is the
first occurrence. -/
theorem indexOfFirst_eq_some_first {u : String} {l : List String} {i : Nat}
    (hfirst : ∀ j, j < i → l.get? j ≠ some u) (hi : l.get? i = some u) :
    indexOfFirst u l = some i := by
  induction l generalizing i with
  | nil => simp at hi
  | cons v rest ih =>
    cases i with
    | zero =>
      simp only [List.get?_cons_zero, Option.some.injEq] at hi
      simp [indexOfFirst, hi]
    | succ n =>
      have hv : ¬ v = u := by
        have h0 := hfirst 0 (Nat.succ_pos n)
        simpa using h0
      have hfirst' : ∀ j, j < n → rest.get? j ≠ some u := by
        intro j hj
        have := hfirst (j + 1) (Nat.succ_lt_succ hj)
        simpa using this
      have hi' : rest.get? n = some u := by simpa using hi
      simp [indexOfFirst, hv, ih hfirst' hi']

/-- The state written by `update_processing_state` always records the
attempted URL as last processed, whatever the status string. -/
theorem update_processing_state_last_url (st : PState) (vid url : String)
    (nf : Option String) (status : String) (now : Nat) :
    (update_processing_state st vid url nf status now).last_processed_url
      = some url := by
  simp only [update_processing_state]
  split_ifs <;> rfl

/-! ## Claims -/

/-- C1 counterexample.  The claim asserts that for every URL occurring at
index `i` the resume index is `i + 1`.  It fails at the duplicated list
`["a", "a"]`, whose element at index 1 gives resume index 1 (first
occurrence plus one), not 2; and at the list `[""]`, whose element at
index 0 gives resume index 0 (the empty string is falsy in Python and is
treated as an absent last URL), not 1. -/
theorem C1_counterexample :
    (["a", "a"].get? 1 = some "a"
      ∧ find_resume_index ["a", "a"] (some "a") ≠ 1 + 1) ∧
    ([""].get? 0 = some ""
      ∧ find_resume_index [""] (some "") ≠ 0 + 1) := by decide

/-- C1, amended.  `find_resume_index` returns 0 when `last_processed_url` is
absent; returns 0 for every URL not occurring in the list; and for every
non-empty URL occurring in the list returns `i + 1`, where `i` is the
first index at which it occurs. -/
theorem C1_resume_amended (urls : List String) (u : String) :
    find_resume_index urls none = 0 ∧
    (u ∉ urls → find_resume_index urls (some u) = 0) ∧
    (u ≠ "" → ∀ i : Nat, (∀ j, j < i → urls.get? j ≠ some u) →
      urls.get? i = some u → find_resume_index urls (some u) = i + 1) := by
  refine ⟨rfl, ?_, ?_⟩
  · intro h
    simp only [find_resume_index]
    by_cases hu : u = ""
    · simp [hu]
    · rw [if_neg hu, indexOfFirst_eq_none_of_not_mem h]
  · intro hne i hfirst hi
    simp only [find_resume_index, if_neg hne,
      indexOfFirst_eq_some_first hfirst hi]

/-- Witness for the amended C1: in `["a", "b"]` the URL `"b"` first occurs
at index 1, and the resume index is 2. -/
theorem C1_resume_amended_witness :
    find_resume_index ["a", "b"] (some "b") = 1 + 1 :=
  (C1_resume_amended ["a", "b"] "b").2.2 (by decide) 1 (by decide) (by decide)

/-- C3.  Three-URL channel run from fresh state with skip-existing enabled,
where the pipeline produces notes for `u1` and `u2` and fails for `u3`:
the final state records `u1` and `u2` as success and `u3` as failed,
`total_processed = 2`, `total_failed = 1`, `last_processed_url = u3`; a
second resumed run over the same list starts at index 3, visits no video,
and leaves state and notes directory unchanged. -/
theorem C3_end_to_end :
    (List.lookup "111" run1.1.processed_videos).map VideoRecord.status
      = some "success" ∧
    (List.lookup "222" run1.1.processed_videos).map VideoRecord.status
      = some "success" ∧
    (List.lookup "333" run1.1.processed_videos).map VideoRecord.status
      = some "failed" ∧
    run1.1.total_processed = 2 ∧
    run1.1.total_failed = 1 ∧
    run1.1.last_processed_url = some u3 ∧
    startIndex true run1.1 [u1, u2, u3] = 3 ∧
    [u1, u2, u3].drop (startIndex true run1.1 [u1, u2, u3]) = [] ∧
    runBatch true true [u1, u2, u3] pipe3 run1.1 run1.2 = run1 := by decide

/-- C6.  `update_processing_state` with status `success` increases
`total_processed` by exactly 1 and leaves the other two counters
unchanged; analogously `failed` bumps only `total_failed` and `skipped`
bumps only `total_skipped`. -/
theorem C6_status_monotonicity (st : PState) (vid url : String)
    (nf : Option String) (now : Nat) :
    ((update_processing_state st vid url nf "success" now).total_processed
        = st.total_processed + 1 ∧
      (update_processing_state st vid url nf "success" now).total_failed
        = st.total_failed ∧
      (update_processing_state st vid url nf "success" now).total_skipped
        = st.total_skipped) ∧
    ((update_processing_state st vid url nf "failed" now).total_failed
        = st.total_failed + 1 ∧
      (update_processing_state st vid url nf "failed" now).total_processed
        = st.total_processed ∧
      (update_processing_state st vid url nf "failed" now).total_skipped
        = st.total_skipped) ∧
    ((update_processing_state st vid url nf "skipped" now).total_skipped
        = st.total_skipped + 1 ∧
      (update_processing_state st vid url nf "skipped" now).total_processed
        = st.total_processed ∧
      (update_processing_state st vid url nf "skipped" now).total_failed
        = st.total_failed) :=
  ⟨⟨rfl, rfl, rfl⟩, ⟨rfl, rfl, rfl⟩, ⟨rfl, rfl, rfl⟩⟩

/-- C8.  `extract_video_id` yields `"778899"` for the TikTok URL with path
segment `/video/778899`, yields `"dQw4w9WgXcQ"` for the YouTube watch URL
with `?v=dQw4w9WgXcQ`, and yields `none` for every URL that contains none
of the platform markers `tiktok.com`, `youtube.com`, `youtu.be` (the
platform test of the source). -/
theorem C8_video_id_extraction :
    extract_video_id "https://www.tiktok.com/@user/video/778899"
      = some "778899" ∧
    extract_video_id "https://www.youtube.com/watch?v=dQw4w9WgXcQ"
      = some "dQw4w9WgXcQ" ∧
    ∀ url : String, strContains "tiktok.com" url = false →
      strContains "youtube.com" url = false →
      strContains "youtu.be" url = false →
      extract_video_id url = none := by
  refine ⟨by decide, by decide, ?_⟩
  intro url h1 h2 h3
  simp [extract_video_id, h1, h2, h3]

/-- Witness for C8: an unrelated URL yields `none`. -/
theorem C8_video_id_extraction_witness :
    extract_video_id "https://example.com/page" = none :=
  C8_video_id_extraction.2.2 "https://example.com/page"
    (by decide) (by decide) (by decide)

/-- C9 at its failing input.  A state file whose bytes are not valid UTF-8
(single byte 0xFF) makes the embedded `load_processing_state` raise a
`UnicodeDecodeError` instead of returning absent: the decode error
subclasses `ValueError`, which the clause
`except (json.JSONDecodeError, IOError)` does not cover. -/
theorem C9_load_raises_on_invalid_utf8 :
    load_processing_state parseNever (.bytes [0xFF])
      = .error .unicodeDecodeError := rfl

/-- C2.  Atomic save: every durable state reachable while
`save_processing_state` runs holds either the old bytes or the complete
new bytes in the state file, never a partial document (partial writes only
ever touch the temp file, and the final replace is one atomic step); and a
save that fails with an IOError, during the temp write or at the replace,
returns false, removes the temp file and leaves the state file unchanged,
while an unfailed save installs exactly the new bytes. -/
theorem C2_atomic_save (fs₀ : StoreFS) (new : List Nat) :
    (∀ fs' ∈ saveTrace fs₀ new,
      fs'.stateFile = fs₀.stateFile ∨ fs'.stateFile = some new) ∧
    (∀ mode : SaveFailure, mode ≠ .noFailure →
      (save_processing_state fs₀ new mode).1 = false ∧
      (save_processing_state fs₀ new mode).2.stateFile = fs₀.stateFile ∧
      (save_processing_state fs₀ new mode).2.tmpFile = none) ∧
    save_processing_state fs₀ new .noFailure
      = (true, { stateFile := some new, tmpFile := none }) := by
  refine ⟨?_, ?_, rfl⟩
  · intro fs' hmem
    rcases List.mem_cons.mp hmem with rfl | hmem'
    · exact Or.inl rfl
    rcases List.mem_append.mp hmem' with hmap | hlast
    · obtain ⟨k, _, hfs⟩ := List.mem_map.mp hmap
      rw [← hfs]
      exact Or.inl rfl
    · rw [List.mem_singleton.mp hlast]
      exact Or.inr rfl
  · intro mode hne
    cases mode with
    | atWrite k => exact ⟨rfl, rfl, rfl⟩
    | atReplace => exact ⟨rfl, rfl, rfl⟩
    | noFailure => exact absurd rfl hne

/-- Witness for C2: with old state bytes `[1]` and new bytes `[7, 8]`, the
mid-write intermediate filesystem (one temp byte written) still reloads
the old bytes, and a failure at the replace step returns false with the
old state intact and the temp file gone. -/
theorem C2_atomic_save_witness :
    ((⟨some [1], some [7]⟩ : StoreFS).stateFile
        = (⟨some [1], none⟩ : StoreFS).stateFile ∨
      (⟨some [1], some [7]⟩ : StoreFS).stateFile = some [7, 8]) ∧
    ((save_processing_state ⟨some [1], none⟩ [7, 8] .atReplace).1 = false ∧
      (save_processing_state ⟨some [1], none⟩ [7, 8] .atReplace).2.stateFile
        = (⟨some [1], none⟩ : StoreFS).stateFile ∧
      (save_processing_state ⟨some [1], none⟩ [7, 8] .atReplace).2.tmpFile
        = none) :=
  ⟨(C2_atomic_save ⟨some [1], none⟩ [7, 8]).1 ⟨some [1], some [7]⟩ (by decide),
   (C2_atomic_save ⟨some [1], none⟩ [7, 8]).2.1 .atReplace (by decide)⟩

/-- C4 counterexample.  With download and extraction succeeding and neither
transcription backend available, the pipeline returns no notes path and
the audio artifact remains on disk, as the claim says — but the downloaded
video also remains on disk: the cleanup step is only reached after notes
are saved, so the claimed unconditional removal of the video does not
happen. -/
theorem C4_counterexample :
    (run_pipeline envUnavail).1 = none ∧
    (run_pipeline envUnavail).2.audioOnDisk = true ∧
    (run_pipeline envUnavail).2.videoOnDisk = true := by decide

/-- C4, amended.  For every run in which download and extraction succeed
but no transcription backend is available, the pipeline returns no notes
path and leaves exactly the video and audio artifacts on disk: the audio
is preserved as documented, and the downloaded video is also preserved,
because the terminal cleanup step runs only after notes are generated
and saved, not unconditionally. -/
theorem C4_partial_failure_amended (env : PipelineEnv)
    (hd : env.downloadOk = true) (he : env.extractOk = true)
    (hl : env.whisperLocalAvailable = false)
    (ha : env.openaiAvailable = false) :
    run_pipeline env =
      (none,
        { videoOnDisk := true, audioOnDisk := true
          transcriptOnDisk := false, notesOnDisk := false }) := by
  simp [run_pipeline, hd, he, hl, ha]

/-- Witness for the amended C4 at the concrete unavailable environment. -/
theorem C4_partial_failure_amended_witness :
    run_pipeline envUnavail =
      (none,
        { videoOnDisk := true, audioOnDisk := true
          transcriptOnDisk := false, notesOnDisk := false }) :=
  C4_partial_failure_amended envUnavail rfl rfl rfl rfl

/-- C5.  When the state maps `vid` to a record naming notes file `F` and
`F` is present in the notes directory, `is_video_processed` reports
`(true, F)`; for a directory from which `F` is absent (for example after
it was deleted), the same call reports `(false, none)`. -/
theorem C5_idempotent_skip (st : PState) (vid F : String) (info : VideoRecord)
    (dir dir' : List String)
    (hrec : List.lookup vid st.processed_videos = some info)
    (hF : info.notes_file = some F) (hne : F ≠ "")
    (hin : F ∈ dir) (hout : F ∉ dir') :
    is_video_processed vid (some st) dir = (true, some F) ∧
    is_video_processed vid (some st) dir' = (false, none) := by
  constructor
  · simp only [is_video_processed, hrec, hF]
    rw [if_neg hne, if_pos hin]
  · simp only [is_video_processed, hrec, hF]
    rw [if_neg hne, if_neg hout]

/-- Witness for C5: a state recording notes file `n.md` for id `111`
reports processed against a directory containing `n.md` and not processed
against an empty directory. -/
theorem C5_idempotent_skip_witness :
    is_video_processed "111" (some stOne) ["n.md"] = (true, some "n.md") ∧
    is_video_processed "111" (some stOne) [] = (false, none) :=
  C5_idempotent_skip stOne "111" "n.md"
    { url := u1, video_id := "111", notes_file := some "n.md"
      processed_at := 0, status := "success" }
    ["n.md"] [] (by decide) rfl (by decide) (by decide) (by decide)

/-- C7 counterexample.  An attempt on a video URL from which no video id
can be extracted (a TikTok link without a `/video/<digits>` segment) runs
the pipeline but leaves the state untouched, so `last_processed_url` does
not become that URL, contradicting the claim that every attempt advances
it. -/
theorem C7_counterexample :
    extract_video_id "https://www.tiktok.com/@chan" = none ∧
    (stepVideo true pipe3 0 (create_initial_state "curl" "chan", [])
        "https://www.tiktok.com/@chan" 1).1
      = create_initial_state "curl" "chan" ∧
    (stepVideo true pipe3 0 (create_initial_state "curl" "chan", [])
        "https://www.tiktok.com/@chan" 1).1.last_processed_url
      ≠ some "https://www.tiktok.com/@chan" := by decide

/-- C7, amended.  After every video attempt whose URL yields an extractable
video id — whatever the outcome: skip, produced notes, no notes, or an
escaping exception — the state records that URL as `last_processed_url`;
attempts on URLs with no extractable id leave the state unchanged. -/
theorem C7_last_attempted_amended (skip_existing : Bool)
    (pipeline : String → PipeOutcome) (now : Nat) (st : PState)
    (notes_dir : List String) (video_url vid : String) (i : Nat)
    (hid : extract_video_id video_url = some vid) :
    ((stepVideo skip_existing pipeline now
        (st, notes_dir) video_url i).1).last_processed_url
      = some video_url := by
  simp only [stepVideo, hid]
  by_cases hskip :
      (skip_existing && (is_video_processed vid (some st) notes_dir).1) = true
  · simp [hskip, update_processing_state_last_url]
  · simp only [Bool.not_eq_true] at hskip
    simp only [hskip, Bool.false_eq_true, if_false, handleOutcome]
    cases pipeline video_url with
    | ok p => simp [update_processing_state_last_url]
    | noNotes => simp [update_processing_state_last_url]
    | exn => simp [update_processing_state_last_url]

/-- Witness for the amended C7: processing `u3` (which fails in `pipe3`)
from the fresh state records `u3` as last processed. -/
theorem C7_last_attempted_amended_witness :
    ((stepVideo true pipe3 2
        (create_initial_state "curl" "chan", []) u3 3).1).last_processed_url
      = some u3 :=
  C7_last_attempted_amended true pipe3 2 (create_initial_state "curl" "chan")
    [] u3 "333" 3 (by decide)

/-- C10.  When the state maps `vid` to a record naming a notes file `F`
that is absent from the notes directory, `is_video_processed` answers
`(false, none)` from the record alone, for every directory contents — in
particular the filename fallback search is not consulted even when some
other file contains `vid` as a substring; and the fallback search is
exactly what answers whenever the state has no record for `vid` or the
record names no notes file (absent or empty name). -/
theorem C10_no_fallback_when_record_names_missing_file (st : PState)
    (vid : String) (dir : List String) :
    (∀ info : VideoRecord, ∀ F : String,
      List.lookup vid st.processed_videos = some info →
      info.notes_file = some F → F ≠ "" → F ∉ dir →
      is_video_processed vid (some st) dir = (false, none)) ∧
    ((List.lookup vid st.processed_videos = none ∨
      (∃ info : VideoRecord,
        List.lookup vid st.processed_videos = some info ∧
        (info.notes_file = none ∨ info.notes_file = some ""))) →
      is_video_processed vid (some st) dir =
        match globFirst vid dir with
        | some f => (true, some f)
        | none => (false, none)) := by
  constructor
  · intro info F hrec hF hne hout
    simp only [is_video_processed, hrec, hF]
    rw [if_neg hne, if_neg hout]
  · intro h
    rcases h with hnone | ⟨info, hrec, hnf | hnf⟩
    · simp only [is_video_processed, hnone]
    · simp only [is_video_processed, hrec, hnf]
    · simp [is_video_processed, hrec, hnf]

/-- Witness for C10: the record for id `111` names `n.md`; against a
directory that lacks `n.md` but holds `x111y.md` (whose name contains the
id) the check still answers not processed. -/
theorem C10_no_fallback_when_record_names_missing_file_witness :
    is_video_processed "111" (some stOne) ["x111y.md"] = (false, none) :=
  (C10_no_fallback_when_record_names_missing_file stOne "111" ["x111y.md"]).1
    { url := u1, video_id := "111", notes_file := some "n.md"
      processed_at := 0, status := "success" }
    "n.md" (by decide) rfl (by decide) (by decide)

end StudyNotes
